import Mathlib

/-!
Verification development for the PaymentProcessor document-processing Lambda
(`PaymentProcessor/Lambdas/document_processor.py`).

The Python source is shallowly embedded as executable Lean definitions:

* JSON values (the payloads moved between the stages and the values produced
  by `json.loads`) are modelled by the inductive type `Json`; numbers are
  rationals.
* External collaborators (the `base64` codec, `pdfplumber`, the OpenAI chat
  endpoint) are oracle fields of `CoreEnv`; `none` models a raised exception
  or an unavailable service.  The chat oracle is a function from the prompt
  string to an optional response, which captures deterministic
  (zero-temperature) decoding.
* Wall-clock readings (`time.time()`, `time.strftime`, elapsed ms) are the
  fields of `TimeEnv`; they never influence anything but the generated
  correlation id, `createdAt` and `processingTimeMs`.
* A Python exception escaping to the outermost `try` of `lambda_handler` is
  an `Except.error`; the 400/200 responses the handler returns inside the
  `try` are `Except.ok` values.
-/

/-- JSON values, as produced by `json.loads` and passed between the pipeline
stages.  A missing dictionary entry and an explicit JSON `null` are both
mapped to `Json.null`, matching Python where `dict.get` returns `None` in
both cases. -/
inductive Json where
  | null
  | bool (b : Bool)
  | num (q : Rat)
  | str (s : String)
  | arr (xs : List Json)
  | obj (fields : List (String × Json))

/-- Python truthiness (`bool(v)`) for the JSON values above: `None`, `False`,
`0`, `""`, `[]` and `{}` are falsy. -/
def jtruthy : Json → Bool
  | .null => false
  | .bool b => b
  | .num q => decide (q ≠ 0)
  | .str s => !(s == "")
  | .arr xs => !xs.isEmpty
  | .obj fs => !fs.isEmpty

/-- First value stored under a key in an association list (Python dictionaries
have unique keys, so first and only). -/
def jlookup : List (String × Json) → String → Option Json
  | [], _ => none
  | (k, v) :: rest, key => if k == key then some v else jlookup rest key

/-- Python dictionary update `d[k] = v`: overwrite in place when the key
exists (keeping its position), append otherwise. -/
def insertKey (fs : List (String × Json)) (k : String) (v : Json) : List (String × Json) :=
  if fs.any (fun p => p.1 == k) then
    fs.map (fun p => if p.1 == k then (k, v) else p)
  else fs ++ [(k, v)]

/-- Python `d.get(k, default)`.  Raises `AttributeError` (an `Except.error`)
when the receiver is not a dictionary, exactly as `.get` does on a
non-`dict` value in the source. -/
def pyGetD (v : Json) (k : String) (d : Json) : Except String Json :=
  match v with
  | .obj fs => .ok ((jlookup fs k).getD d)
  | _ => .error "AttributeError: get"

/-- Python `d.get(k)` (default `None`). -/
def pyGet (v : Json) (k : String) : Except String Json :=
  pyGetD v k .null

/-- Python `a or b`. -/
def pyOr (a b : Json) : Json :=
  if jtruthy a then a else b

/-- Does a JSON object carry the given key? -/
def hasKey (v : Json) (k : String) : Bool :=
  match v with
  | .obj fs => fs.any (fun p => p.1 == k)
  | _ => false

/-- Is the value a string or `null`?  (The shapes the extraction prompt asks
the model to produce for each field.) -/
def isStrOrNull : Json → Bool
  | .str _ => true
  | .null => true
  | _ => false

/-! ### A `json.loads` model

A recursive-descent parser for the JSON fragment relevant here: `null`,
booleans, (non-exponent) decimal numbers, strings with the single-character
escapes, arrays and objects.  Duplicate object keys are resolved last-wins,
as in Python.  Recursion is fuelled by the input length. -/

/-- Skip JSON whitespace. -/
def skipWs : List Char → List Char
  | [] => []
  | c :: cs =>
    if c == ' ' || c == '\x09' || c == '\x0a' || c == '\x0d' then skipWs cs
    else c :: cs

/-- Parse the body of a JSON string literal (the opening quote already
consumed), returning the decoded text and the rest of the input. -/
def parseJStr : List Char → Option (String × List Char)
  | [] => none
  | '"' :: r => some ("", r)
  | '\\' :: r =>
    match r with
    | [] => none
    | c :: rest =>
      let esc : Option Char :=
        match c with
        | 'n' => some '\x0a'
        | 't' => some '\x09'
        | 'r' => some '\x0d'
        | 'b' => some '\x08'
        | 'f' => some '\x0c'
        | '"' => some '"'
        | '\\' => some '\\'
        | '/' => some '/'
        | _ => none
      match esc with
      | none => none
      | some ch => (parseJStr rest).map (fun p => (String.mk (ch :: p.1.data), p.2))
  | c :: r => (parseJStr r).map (fun p => (String.mk (c :: p.1.data), p.2))

/-- Accumulate a run of decimal digits: value, digit count, rest. -/
def parseDigitsAux : List Char → Nat → Nat → Nat × Nat × List Char
  | [], acc, cnt => (acc, cnt, [])
  | c :: r, acc, cnt =>
    if c.isDigit then parseDigitsAux r (acc * 10 + (c.toNat - 48)) (cnt + 1)
    else (acc, cnt, c :: r)

/-- Assemble a rational from sign, integer part and fractional digits. -/
def mkRatNum (neg : Bool) (ip fp fcnt : Nat) : Json :=
  let m : Rat := (ip : Rat) + (fp : Rat) / ((10 : Rat) ^ fcnt)
  .num (if neg then -m else m)

/-- Parse a JSON number (exponents are outside this model). -/
def parseNum (s : List Char) : Option (Json × List Char) :=
  let signed : Bool × List Char :=
    match s with
    | '-' :: r => (true, r)
    | _ => (false, s)
  match parseDigitsAux signed.2 0 0 with
  | (_, 0, _) => none
  | (ip, _, s2) =>
    match s2 with
    | '.' :: r =>
      (match parseDigitsAux r 0 0 with
       | (_, 0, _) => none
       | (fp, fcnt, s3) => some (mkRatNum signed.1 ip fp fcnt, s3))
    | _ => some (mkRatNum signed.1 ip 0 0, s2)

mutual

/-- Parse one JSON value. -/
def parseJ : Nat → List Char → Option (Json × List Char)
  | 0, _ => none
  | f + 1, s =>
    match skipWs s with
    | 'n' :: 'u' :: 'l' :: 'l' :: r => some (.null, r)
    | 't' :: 'r' :: 'u' :: 'e' :: r => some (.bool true, r)
    | 'f' :: 'a' :: 'l' :: 's' :: 'e' :: r => some (.bool false, r)
    | '"' :: r => (parseJStr r).map (fun p => (.str p.1, p.2))
    | '[' :: r =>
      (match skipWs r with
       | ']' :: r2 => some (.arr [], r2)
       | r2 => (parseArrItems f r2).map (fun p => (.arr p.1, p.2)))
    | '\x7b' :: r =>
      (match skipWs r with
       | '\x7d' :: r2 => some (.obj [], r2)
       | r2 => (parseObjItems f r2 []).map (fun p => (.obj p.1, p.2)))
    | r => parseNum r

/-- Parse the comma-separated items of a non-empty array, up to `]`. -/
def parseArrItems : Nat → List Char → Option (List Json × List Char)
  | 0, _ => none
  | f + 1, s =>
    match parseJ f s with
    | none => none
    | some (v, r) =>
      match skipWs r with
      | ',' :: r2 => (parseArrItems f r2).map (fun p => (v :: p.1, p.2))
      | ']' :: r2 => some ([v], r2)
      | _ => none

/-- Parse the members of a non-empty object, up to the closing brace,
resolving duplicate keys last-wins as Python does. -/
def parseObjItems : Nat → List Char → List (String × Json) →
    Option (List (String × Json) × List Char)
  | 0, _, _ => none
  | f + 1, s, acc =>
    match skipWs s with
    | '"' :: r =>
      (match parseJStr r with
       | none => none
       | some (k, r1) =>
         match skipWs r1 with
         | ':' :: r2 =>
           (match parseJ f r2 with
            | none => none
            | some (v, r3) =>
              match skipWs r3 with
              | ',' :: r4 => parseObjItems f r4 (insertKey acc k v)
              | '\x7d' :: r4 => some (insertKey acc k v, r4)
              | _ => none)
         | _ => none)
    | _ => none

end

/-- `json.loads`: parse the whole string as one JSON value; trailing
non-whitespace (or any syntax error) is a failure, modelling the raised
`JSONDecodeError`. -/
def json_loads (s : String) : Option Json :=
  match parseJ (s.length + 1) s.data with
  | some (v, r) => if (skipWs r).isEmpty then some v else none
  | none => none

/-! ### Rendering values into prompt text

`normalize_due_date_via_openai` interpolates the raw due-date value into its
prompt with an f-string, i.e. through Python `str()`.  The rendering below is
exact for the scalar values the extraction contract produces (strings render
as themselves, `None`/`True`/`False` as their Python names); container values
are rendered in a Python-repr style.  The rendering only determines the key
presented to the chat oracle. -/

/-- Integer rationals render without a denominator, like Python ints. -/
def ratStr (q : Rat) : String :=
  if q.den == 1 then toString q.num else toString q

mutual

/-- Python `repr()`-style rendering of a JSON value. -/
def pyRepr : Json → String
  | .null => "None"
  | .bool true => "True"
  | .bool false => "False"
  | .num q => ratStr q
  | .str s => "'" ++ s ++ "'"
  | .arr xs => "[" ++ pyReprList xs ++ "]"
  | .obj fs => "\x7b" ++ pyReprObj fs ++ "\x7d"

/-- Comma-separated renderings of array elements. -/
def pyReprList : List Json → String
  | [] => ""
  | [x] => pyRepr x
  | x :: xs => pyRepr x ++ ", " ++ pyReprList xs

/-- Comma-separated renderings of object members. -/
def pyReprObj : List (String × Json) → String
  | [] => ""
  | [kv] => "'" ++ kv.1 ++ "': " ++ pyRepr kv.2
  | kv :: xs => "'" ++ kv.1 ++ "': " ++ pyRepr kv.2 ++ ", " ++ pyReprObj xs

end

/-- Python `str()`: like `repr()` except top-level strings render without
quotes. -/
def pyStr : Json → String
  | .str s => s
  | v => pyRepr v

/-! ### The external-collaborator environment -/

/-- Process-wide configuration and the external collaborators, resolved once
at startup (`pdfplumber`/`openai` import success, `OPENAI_API_KEY`) or
modelled as oracles (`pdfplumber` page extraction, the chat endpoint, the
`base64` codec).  `none` from an oracle models a raised exception. -/
structure CoreEnv where
  pdfplumberAvailable : Bool
  pdfExtract : List Nat → Option (List String)
  openaiAvailable : Bool
  hasApiKey : Bool
  chat : String → Option String
  b64decode : String → Option (List Nat)

/-- The wall-clock readings taken during one invocation. -/
structure TimeEnv where
  nowMs : Nat
  createdAt : String
  elapsedMs : Nat

/-! ### Checksum Validator (`is_valid_routing_number`, source lines 58-66) -/

/-- The weighted digit sum `3*(d0+d3+d6) + 7*(d1+d4+d7) + 1*(d2+d5+d8)` of
the first nine characters read as decimal digits. -/
def routingChecksum (rn : String) : Nat :=
  let digits := rn.data.map (fun c => c.toNat - 48)
  3 * (digits.getD 0 0 + digits.getD 3 0 + digits.getD 6 0)
  + 7 * (digits.getD 1 0 + digits.getD 4 0 + digits.getD 7 0)
  + 1 * (digits.getD 2 0 + digits.getD 5 0 + digits.getD 8 0)

/-- ABA routing checksum validation (9 digits). -/
def is_valid_routing_number (rn : String) : Bool :=
  if rn == "" || rn.length != 9 || !(rn.data.all Char.isDigit) then false
  else routingChecksum rn % 10 == 0

/-- `is_valid_routing_number` applied to an arbitrary JSON value, as the
orchestrator does with whatever `extracted.get("routingNumber")` returned:
`len()` of a number or boolean raises `TypeError`, and `.isdigit()` on a
length-9 container raises `AttributeError`; other containers fail the length
test and return `False`. -/
def rn_check_json : Json → Except String Bool
  | .str s => .ok (is_valid_routing_number s)
  | .null => .ok false
  | .num _ => .error "TypeError: len"
  | .bool b => if b then .error "TypeError: len" else .ok false
  | .arr xs => if xs.length != 9 then .ok false else .error "AttributeError: isdigit"
  | .obj fs => if fs.length != 9 then .ok false else .error "AttributeError: isdigit"

/-! ### Biller Classifier (`detect_biller`, source lines 130-143) -/

/-- Is `needle` a prefix of `hay`? -/
def strStartsWith : List Char → List Char → Bool
  | _, [] => true
  | [], _ :: _ => false
  | c :: cs, d :: ds => c == d && strStartsWith cs ds

/-- Does `needle` occur at some position of `hay`? -/
def substrAux : List Char → List Char → Bool
  | [], needle => needle.isEmpty
  | c :: cs, needle => strStartsWith (c :: cs) needle || substrAux cs needle

/-- Python `needle in hay` on strings. -/
def strContains (hay needle : String) : Bool :=
  substrAux hay.data needle.data

/-- Python `s.lower()` (character-wise lowering; the configured keywords are
ASCII). -/
def strLower (s : String) : String :=
  String.mk (s.data.map Char.toLower)

/-- The configured biller keyword table, in its declared enumeration order
(Python dictionaries iterate in insertion order). -/
def patterns : List (String × List String) :=
  [("AT&T", ["AT&T", "ATT", "att.com"]),
   ("Xfinity", ["Xfinity", "Comcast", "xfinity.com"]),
   ("City Utilities", ["Utility Billing", "City of", "Water Bill", "Electric Bill"])]

/-- The nested loop of `detect_biller`: first biller group with any
case-insensitively matching keyword wins. -/
def detectBillerAux (lower : String) : List (String × List String) → String
  | [] => "Unknown"
  | (biller, kws) :: rest =>
    if kws.any (fun kw => strContains lower (strLower kw)) then biller
    else detectBillerAux lower rest

/-- `detect_biller`: keyword classification of the extracted text. -/
def detect_biller (text : String) : String :=
  if text == "" then "Unknown"
  else detectBillerAux (strLower text) patterns

/-! ### Text Extractor (`call_openai_ocr_pdf` / `extract_text_from_pdf_bytes`,
source lines 69-127) -/

/-- The base64 alphabet. -/
def base64Chars : List Char :=
  "ABCDEFGHIJKLMNOPQRSTUVWXYZabcdefghijklmnopqrstuvwxyz0123456789+/".data

/-- The base64 character for a 6-bit group. -/
def b64char (i : Nat) : Char :=
  base64Chars.getD i 'A'

/-- `base64.b64encode(...).decode("ascii")` over a byte list. -/
def b64encode : List Nat → String
  | [] => ""
  | [b1] =>
    String.mk [b64char (b1 % 256 / 4), b64char (b1 % 4 * 16)] ++ "=="
  | [b1, b2] =>
    String.mk [b64char (b1 % 256 / 4), b64char (b1 % 4 * 16 + b2 % 256 / 16),
      b64char (b2 % 16 * 4)] ++ "="
  | b1 :: b2 :: b3 :: rest =>
    String.mk [b64char (b1 % 256 / 4), b64char (b1 % 4 * 16 + b2 % 256 / 16),
      b64char (b2 % 16 * 4 + b3 % 256 / 64), b64char (b3 % 64)] ++ b64encode rest

/-- The OCR-fallback prompt, including the 200000-character truncation of the
base64 payload and the truncation note. -/
def ocr_prompt (pdf_bytes : List Nat) : String :=
  let b64 := b64encode pdf_bytes
  let snippet := if b64.length > 200000 then b64.take 200000 else b64
  let note :=
    if b64.length > 200000 then "(truncated base64, showing first 200000 chars)\n"
    else ""
  "You are a PDF OCR assistant. A PDF file has been encoded in base64.\n"
  ++ "Attempt to extract any human-readable text from the PDF. If you cannot decode the PDF, try to infer textual content from the encoded bytes.\n"
  ++ "Return ONLY the extracted text, with no additional commentary.\n\n"
  ++ "Base64 PDF (may be truncated):\n" ++ note ++ snippet

/-- `call_openai_ocr_pdf`: OCR fallback through the chat endpoint; any
failure degrades to the empty string. -/
def call_openai_ocr_pdf (env : CoreEnv) (pdf_bytes : List Nat) : String :=
  if !env.openaiAvailable || !env.hasApiKey then ""
  else
    match env.chat (ocr_prompt pdf_bytes) with
    | some txt => txt
    | none => ""

/-- `extract_text_from_pdf_bytes`: pdfplumber first (joining page texts with
newlines; a raised extraction error degrades to empty), then the OCR fallback
when the primary produced nothing and OpenAI is configured. -/
def extract_text_from_pdf_bytes (env : CoreEnv) (pdf_bytes : List Nat) : String :=
  let text :=
    if env.pdfplumberAvailable then
      match env.pdfExtract pdf_bytes with
      | some pages => String.intercalate "\n" pages
      | none => ""
    else ""
  if text == "" && env.openaiAvailable && env.hasApiKey then
    call_openai_ocr_pdf env pdf_bytes
  else text

/-! ### Field Extractor (`call_openai_extract_fields`, source lines 146-168) -/

/-- The all-null six-key field set. -/
def emptyFieldSet : Json :=
  .obj [("invoiceNumber", .null), ("amount", .null), ("dueDateRaw", .null),
    ("routingNumber", .null), ("accountNumber", .null), ("payeeName", .null)]

/-- The extraction prompt, over the first 5000 characters of the text. -/
def extract_fields_prompt (document_text : String) : String :=
  "You are a JSON extractor for invoice/payment PDFs.\n"
  ++ "Extract fields: invoiceNumber, amount, dueDateRaw, routingNumber, accountNumber, payeeName.\n"
  ++ "Return only JSON with these keys, use null for missing values.\n\n"
  ++ "Document text:\n\"\"\"" ++ document_text.take 5000 ++ "\"\"\""

/-- `call_openai_extract_fields`: all-null fields when OpenAI is unconfigured
or the text is empty; otherwise `json.loads` of the chat response, returned
verbatim when it parses, with any raised error degrading to the all-null
fields. -/
def call_openai_extract_fields (env : CoreEnv) (document_text : String) : Json :=
  if !env.openaiAvailable || !env.hasApiKey || document_text == "" then emptyFieldSet
  else
    match env.chat (extract_fields_prompt document_text) with
    | none => emptyFieldSet
    | some txt =>
      match json_loads txt with
      | some j => j
      | none => emptyFieldSet

/-! ### Date Normalizer (`normalize_due_date_via_openai`, source lines
171-187) -/

/-- The date-normalization prompt (the raw value interpolated through
`str()`). -/
def normalize_prompt (due_date_raw : Json) : String :=
  "Normalize this invoice due date text into a single ISO date (YYYY-MM-DD). If ambiguous, return JSON with normalized=null and note explaining ambiguity.\n"
  ++ "Text: '" ++ pyStr due_date_raw ++ "'\nReturn JSON: \x7b\"normalized\":...,\"note\":...\x7d"

/-- `normalize_due_date_via_openai`: the `ai-not-configured` diagnostic when
OpenAI is unconfigured or the raw value is falsy; `json.loads` of the chat
response, returned verbatim when it parses; the `ai-failed` diagnostic when
the call or the parse raises. -/
def normalize_due_date_via_openai (env : CoreEnv) (due_date_raw : Json) : Json :=
  if !env.openaiAvailable || !env.hasApiKey || !(jtruthy due_date_raw) then
    .obj [("normalized", .null), ("note", .str "ai-not-configured")]
  else
    match env.chat (normalize_prompt due_date_raw) with
    | none => .obj [("normalized", .null), ("note", .str "ai-failed")]
    | some txt =>
      match json_loads txt with
      | some j => j
      | none => .obj [("normalized", .null), ("note", .str "ai-failed")]

/-! ### Pipeline Orchestrator (`lambda_handler`, source lines 190-271) -/

/-- A Lambda proxy response: status code and (already-decoded) JSON body. -/
structure Resp where
  statusCode : Nat
  body : Json

/-- The ProcessingResult record assembled at lines 240-251 (the `item` the
handler logs). -/
structure Item where
  correlationId : Json
  userId : Json
  fileName : Json
  status : String
  extracted : Json
  errors : List Json
  aiSuggestions : Json
  billerDetected : String
  createdAt : String
  processingTimeMs : Nat

/-- Outcome of the time-independent part of one invocation: an early 400
return, or the assembled pipeline products. -/
inductive CoreOutcome where
  | early (r : Resp)
  | done (cid0 user_id file_name : Json) (extracted : Json) (errors : List Json)
      (biller : String)

/-- Outcome of a full invocation that did not raise. -/
inductive RunOutcome where
  | early (r : Resp)
  | done (item : Item) (r : Resp)

/-- Body acquisition, lines 194-198: take `event["body"]` when the event is a
dictionary (else the event itself); parse it as JSON when it is a string,
falling back to the raw value-or-`{}` when the parse raises. -/
def parse_body (event : Json) : Json :=
  let body_raw : Json :=
    match event with
    | .obj fs => (jlookup fs "body").getD .null
    | _ => event
  match body_raw with
  | .str s =>
    (match json_loads s with
     | some j => j
     | none => pyOr (.str s) (.obj []))
  | _ => pyOr body_raw (.obj [])

/-- The FieldError appended for an invalid routing number (line 226). -/
def mk_routing_error : Json :=
  .obj [("field", .str "routingNumber"), ("reason", .str "Invalid ABA checksum"),
    ("suggestedFix", .null), ("confidence", .num (3 / 5))]

/-- The FieldError appended for an unresolved due date (line 236). -/
def mk_due_error (note : Json) : Json :=
  .obj [("field", .str "dueDate"), ("reason", .str "Ambiguous date format"),
    ("suggestedFix", note), ("confidence", .num (1 / 2))]

/-- Python `extracted["dueDate"] = v` (line 234); only reached once
`extracted` is known to be a dictionary. -/
def pySetKey (v : Json) (k : String) (x : Json) : Json :=
  match v with
  | .obj fs => .obj (insertKey fs k x)
  | other => other

/-- The validation stage, lines 218-236: flag an invalid truthy routing
number, then resolve a truthy raw due date through the Date Normalizer,
either writing `dueDate` or appending a FieldError carrying the normalizer's
note.  An `AttributeError`/`TypeError` raised on a non-dictionary extraction
result (or a numeric routing value) propagates as `Except.error`. -/
def validateFields (env : CoreEnv) (extracted : Json) :
    Except String (Json × List Json) :=
  match pyGet extracted "routingNumber" with
  | .error e => .error e
  | .ok routing =>
    let step1 : Except String (List Json) :=
      if jtruthy routing then
        match rn_check_json routing with
        | .error e => .error e
        | .ok b => .ok (if b then [] else [mk_routing_error])
      else .ok []
    match step1 with
    | .error e => .error e
    | .ok errs1 =>
      match pyGet extracted "dueDateRaw" with
      | .error e => .error e
      | .ok due_raw =>
        if jtruthy due_raw then
          let norm := normalize_due_date_via_openai env due_raw
          match pyGet norm "normalized" with
          | .error e => .error e
          | .ok normalized =>
            if jtruthy normalized then
              .ok (pySetKey extracted "dueDate" normalized, errs1)
            else
              match pyGet norm "note" with
              | .error e => .error e
              | .ok note => .ok (extracted, errs1 ++ [mk_due_error note])
        else .ok (extracted, errs1)

/-- `base64.b64decode(document_b64)` under the `try` of lines 208-211: any
raised error (invalid padding, or a non-string argument) is `none`. -/
def pyB64decode (env : CoreEnv) (v : Json) : Option (List Nat) :=
  match v with
  | .str s => env.b64decode s
  | _ => none

/-- The time-independent part of `lambda_handler`'s `try` block: request
parsing, the two 400 guards, text extraction, biller detection, field
extraction and validation.  `Except.error` models an exception reaching the
outermost handler. -/
def run_core (env : CoreEnv) (event : Json) : Except String CoreOutcome :=
  let body := parse_body event
  match pyGet body "correlationId" with
  | .error e => .error e
  | .ok cid0 =>
    match pyGet body "documentBase64" with
    | .error e => .error e
    | .ok document_b64 =>
      match pyGetD body "userId" (.str "demo") with
      | .error e => .error e
      | .ok user_id =>
        match pyGetD body "fileName" (.str "uploaded.pdf") with
        | .error e => .error e
        | .ok file_name =>
          if !(jtruthy document_b64) then
            .ok (.early ⟨400, .obj [("error", .str "documentBase64 required")]⟩)
          else
            match pyB64decode env document_b64 with
            | none => .ok (.early ⟨400, .obj [("error", .str "invalid base64")]⟩)
            | some pdf_bytes =>
              let text := extract_text_from_pdf_bytes env pdf_bytes
              let biller := detect_biller text
              let extracted := call_openai_extract_fields env text
              match validateFields env extracted with
              | .error e => .error e
              | .ok exErrs =>
                .ok (.done cid0 user_id file_name exErrs.1 exErrs.2 biller)

/-- Result assembly: the generated `cid-<ms>` correlation id when the request
supplied none (line 200), the status decided by the FieldError list
(line 238), the logged item (lines 240-251) and the 200 response
(line 266). -/
def assemble (tm : TimeEnv) : CoreOutcome → RunOutcome
  | .early r => .early r
  | .done cid0 user_id file_name extracted errors biller =>
    let correlation_id :=
      if jtruthy cid0 then cid0 else .str ("cid-" ++ toString tm.nowMs)
    let status := if errors.isEmpty then "approved" else "needs_review"
    .done
      ⟨correlation_id, user_id, file_name, status, extracted, errors, .obj [],
        biller, tm.createdAt, tm.elapsedMs⟩
      ⟨200, .obj [("correlationId", correlation_id), ("status", .str status)]⟩

/-- One invocation inside the outermost `try`. -/
def run_pipeline (env : CoreEnv) (tm : TimeEnv) (event : Json) :
    Except String RunOutcome :=
  (run_core env event).map (assemble tm)

/-- `lambda_handler`: the responses returned inside the `try`, or the 500
`lambda-failed` envelope built by the outermost `except` (lines 268-271). -/
def lambda_handler (env : CoreEnv) (tm : TimeEnv) (event : Json) : Resp :=
  match run_pipeline env tm event with
  | .ok (.early r) => r
  | .ok (.done _ r) => r
  | .error e => ⟨500, .obj [("error", .str "lambda-failed"), ("detail", .str e)]⟩

/-! ### Statement helpers and concrete test fixtures -/

/-- Value stored under a key of a JSON object (`none` when the key is absent
or the value is not an object). -/
def objLookup (v : Json) (k : String) : Option Json :=
  match v with
  | .obj fs => jlookup fs k
  | _ => none

/-- Number of members of a JSON object. -/
def objSize (v : Json) : Nat :=
  match v with
  | .obj fs => fs.length
  | _ => 0

/-- A chat response the validation stage survives: either it fails to parse
as JSON (the stage then falls back), or it parses to a JSON object all of
whose values are strings or null. -/
def goodResp (r : String) : Prop :=
  json_loads r = none ∨
    ∃ gs, json_loads r = some (.obj gs) ∧ ∀ kv ∈ gs, isStrOrNull kv.2 = true

/-- The FieldError list produced by the routing-number check (lines 222-226)
when the stored routing value is a string or null: flag a truthy string that
fails the checksum. -/
def routing_errors (fs : List (String × Json)) : List Json :=
  match (jlookup fs "routingNumber").getD .null with
  | .str s => if s == "" || is_valid_routing_number s then [] else [mk_routing_error]
  | _ => []

/-- An environment with no optional dependency available: no pdfplumber, no
OpenAI SDK, no API key; base64 decoding succeeds with an empty payload. -/
def envW : CoreEnv :=
  { pdfplumberAvailable := false
    pdfExtract := fun _ => none
    openaiAvailable := false
    hasApiKey := false
    chat := fun _ => none
    b64decode := fun _ => some [] }

/-- `envW` with a failing base64 decoder. -/
def envBad : CoreEnv :=
  { envW with b64decode := fun _ => none }

/-- A fully configured environment whose chat endpoint always answers with
the JSON array `[]`. -/
def envArr : CoreEnv :=
  { pdfplumberAvailable := true
    pdfExtract := fun _ => some ["pay bill"]
    openaiAvailable := true
    hasApiKey := true
    chat := fun _ => some "[]"
    b64decode := fun _ => some [1] }

/-- A fully configured environment whose chat endpoint always answers with a
JSON object that has none of the six field keys. -/
def envFoo : CoreEnv :=
  { envArr with chat := fun _ => some "\x7b\"foo\": null\x7d" }

/-- First wall clock. -/
def tmA : TimeEnv := ⟨5, "tA", 1⟩

/-- Second wall clock. -/
def tmB : TimeEnv := ⟨6, "tB", 2⟩

/-- A request carrying only a (decodable) document payload. -/
def eventW : Json := .obj [("body", .obj [("documentBase64", .str "AA==")])]

/-- The item `envW`/`tmA` produce for `eventW`. -/
def itemWA : Item :=
  ⟨.str "cid-5", .str "demo", .str "uploaded.pdf", "approved", emptyFieldSet, [],
    .obj [], "Unknown", "tA", 1⟩

/-- The item `envW`/`tmB` produce for `eventW`. -/
def itemWB : Item :=
  ⟨.str "cid-6", .str "demo", .str "uploaded.pdf", "approved", emptyFieldSet, [],
    .obj [], "Unknown", "tB", 2⟩

/-- The 200 response of the `tmA` run. -/
def respWA : Resp :=
  ⟨200, .obj [("correlationId", .str "cid-5"), ("status", .str "approved")]⟩

/-- The 200 response of the `tmB` run. -/
def respWB : Resp :=
  ⟨200, .obj [("correlationId", .str "cid-6"), ("status", .str "approved")]⟩

/-! ## Theorems -/

/-- Helper: `detectBillerAux` returns the first biller, in list order, with a
matching keyword. -/
theorem detectAux_eq_find (lower : String) (l : List (String × List String)) :
    detectBillerAux lower l =
      ((l.find? (fun p => p.2.any (fun kw => strContains lower (strLower kw)))).map
        Prod.fst).getD "Unknown" := by
  induction l with
  | nil => rfl
  | cons hd tl ih =>
    obtain ⟨b, kws⟩ := hd
    by_cases h : (kws.any (fun kw => strContains lower (strLower kw))) = true
    · simp [detectBillerAux, List.find?_cons, h]
    · simp only [Bool.not_eq_true] at h
      simp [detectBillerAux, List.find?_cons, h, ih]

/-- Helper: on non-empty text, `detect_biller` is the first matching biller
of the configuration table. -/
theorem detect_biller_eq_find (t : String) (ht : t ≠ "") :
    detect_biller t =
      ((patterns.find? (fun p => p.2.any (fun kw => strContains (strLower t) (strLower kw)))).map
        Prod.fst).getD "Unknown" := by
  rw [detect_biller, if_neg (by simp [ht]), detectAux_eq_find]

/-- Helper: `detect_biller` is `"Unknown"` when no configured keyword
matches. -/
theorem detect_biller_unknown (t : String)
    (hno : ∀ p ∈ patterns, ∀ kw ∈ p.2, strContains (strLower t) (strLower kw) = false) :
    detect_biller t = "Unknown" := by
  by_cases ht : t = ""
  · subst ht; rfl
  · rw [detect_biller_eq_find t ht]
    have hfind :
        patterns.find? (fun p => p.2.any (fun kw => strContains (strLower t) (strLower kw)))
          = none := by
      rw [List.find?_eq_none]
      intro p hp
      simp only [List.any_eq_true, not_exists, not_and, Bool.not_eq_true]
      intro kw hkw
      exact hno p hp kw hkw
    rw [hfind]; rfl

/-- C1.  `is_valid_routing_number` returns true exactly on nine-character
all-decimal-digit strings whose weighted sum
`3*(d0+d3+d6) + 7*(d1+d4+d7) + 1*(d2+d5+d8)` is divisible by 10; every other
string yields false.  `"021000021"` validates and `"123456789"` does not. -/
theorem routing_validator_spec :
    (∀ rn : String, is_valid_routing_number rn = true ↔
      (rn.length = 9 ∧ rn.data.all Char.isDigit = true ∧ routingChecksum rn % 10 = 0)) ∧
    is_valid_routing_number "021000021" = true ∧
    is_valid_routing_number "123456789" = false := by
  refine ⟨fun rn => ?_, by decide, by decide⟩
  by_cases h0 : rn = ""
  · subst h0; decide
  · by_cases h9 : rn.length = 9
    · by_cases hd : rn.data.all Char.isDigit = true
      · simp [is_valid_routing_number, h0, h9, hd]
      · simp only [Bool.not_eq_true] at hd
        simp [is_valid_routing_number, h0, h9, hd]
    · simp [is_valid_routing_number, h0, h9]

/-- C1 witness: the concrete valid example. -/
theorem routing_validator_spec_witness :
    is_valid_routing_number "021000021" = true :=
  routing_validator_spec.2.1

/-- C6.  `detect_biller` yields `"Unknown"` on empty text and on text
matching no configured keyword; otherwise it yields the first biller of the
configuration table, in declared order, any of whose keywords occurs
case-insensitively in the text.  `"Xfinity statement"` yields `"Xfinity"`. -/
theorem biller_classifier_spec :
    detect_biller "" = "Unknown" ∧
    detect_biller "Xfinity statement" = "Xfinity" ∧
    (∀ t : String,
      (∀ p ∈ patterns, ∀ kw ∈ p.2, strContains (strLower t) (strLower kw) = false) →
      detect_biller t = "Unknown") ∧
    (∀ t : String, t ≠ "" →
      detect_biller t =
        ((patterns.find? (fun p => p.2.any (fun kw => strContains (strLower t) (strLower kw)))).map
          Prod.fst).getD "Unknown") :=
  ⟨rfl, by decide, detect_biller_unknown, detect_biller_eq_find⟩

/-- C6 witness: text without any configured keyword classifies as
`"Unknown"`. -/
theorem biller_classifier_spec_witness :
    detect_biller "hello world" = "Unknown" :=
  biller_classifier_spec.2.2.1 "hello world" (by decide)

/-- C2.  Every run that reaches result assembly has
`status = "needs_review"` exactly when the FieldError list is non-empty. -/
theorem status_iff_errors (env : CoreEnv) (tm : TimeEnv) (event : Json)
    (item : Item) (r : Resp)
    (h : run_pipeline env tm event = .ok (.done item r)) :
    item.status = "needs_review" ↔ item.errors ≠ [] := by
  unfold run_pipeline at h
  cases hc : run_core env event with
  | error e => rw [hc] at h; simp [Except.map] at h
  | ok co =>
    rw [hc] at h
    simp only [Except.map] at h
    cases co with
    | early r2 => simp [assemble] at h
    | done cid0 uid fname ex errs biller =>
      simp only [assemble, Except.ok.injEq] at h
      injection h with h1 h2
      subst h1
      cases errs with
      | nil => simp
      | cons e0 es => simp

/-- C2 witness: a concrete run reaching assembly with no errors and status
`"approved"`. -/
theorem status_iff_errors_witness :
    itemWA.status = "needs_review" ↔ itemWA.errors ≠ [] :=
  status_iff_errors envW tmA eventW itemWA respWA rfl

/-- C5.  A request without `documentBase64` gets the 400
`documentBase64 required` response, and a request whose truthy
`documentBase64` fails base64 decoding gets the 400 `invalid base64`
response; in both cases for every extraction/inference oracle, so no later
stage influences the outcome. -/
theorem decode_guards_spec (env : CoreEnv) (tm : TimeEnv) (event : Json)
    (bfs : List (String × Json)) (hbody : parse_body event = .obj bfs) :
    (jlookup bfs "documentBase64" = none →
      lambda_handler env tm event =
        ⟨400, .obj [("error", .str "documentBase64 required")]⟩) ∧
    (∀ v, jlookup bfs "documentBase64" = some v → jtruthy v = true →
      pyB64decode env v = none →
      lambda_handler env tm event =
        ⟨400, .obj [("error", .str "invalid base64")]⟩) := by
  constructor
  · intro hmiss
    simp [lambda_handler, run_pipeline, run_core, hbody, pyGet, pyGetD, hmiss,
      jtruthy, Except.map, assemble]
  · intro v hv htr hdec
    simp [lambda_handler, run_pipeline, run_core, hbody, pyGet, pyGetD, hv, htr,
      hdec, Except.map, assemble]

/-- C5 witness: both guards at concrete requests. -/
theorem decode_guards_spec_witness :
    lambda_handler envW tmA (.obj [("body", .obj [])]) =
      ⟨400, .obj [("error", .str "documentBase64 required")]⟩ ∧
    lambda_handler envBad tmA eventW =
      ⟨400, .obj [("error", .str "invalid base64")]⟩ :=
  ⟨(decode_guards_spec envW tmA (.obj [("body", .obj [])]) [] rfl).1 rfl,
   (decode_guards_spec envBad tmA eventW [("documentBase64", .str "AA==")] rfl).2
     (.str "AA==") rfl rfl rfl⟩

/-- C9.  A present-but-empty `documentBase64` is rejected exactly like a
missing one: the payload is tested by truthiness, so the handler returns the
400 `documentBase64 required` response. -/
theorem empty_doc_spec (env : CoreEnv) (tm : TimeEnv) (event : Json)
    (bfs : List (String × Json)) (hbody : parse_body event = .obj bfs)
    (hdoc : jlookup bfs "documentBase64" = some (.str "")) :
    lambda_handler env tm event =
      ⟨400, .obj [("error", .str "documentBase64 required")]⟩ := by
  simp [lambda_handler, run_pipeline, run_core, hbody, pyGet, pyGetD, hdoc,
    jtruthy, Except.map, assemble]

/-- C9 witness: the concrete empty-string payload. -/
theorem empty_doc_spec_witness :
    lambda_handler envW tmA (.obj [("body", .obj [("documentBase64", .str "")])]) =
      ⟨400, .obj [("error", .str "documentBase64 required")]⟩ :=
  empty_doc_spec envW tmA (.obj [("body", .obj [("documentBase64", .str "")])])
    [("documentBase64", .str "")] rfl rfl

/-- C10.  A non-empty request body string that is not valid JSON survives
the body parse as the raw string, the attribute access on it raises, and the
handler answers with the 500 `lambda-failed` envelope. -/
theorem bad_body_spec (env : CoreEnv) (tm : TimeEnv)
    (fs : List (String × Json)) (s : String)
    (hb : jlookup fs "body" = some (.str s)) (hs : s ≠ "")
    (hp : json_loads s = none) :
    ∃ d, lambda_handler env tm (.obj fs) =
      ⟨500, .obj [("error", .str "lambda-failed"), ("detail", .str d)]⟩ := by
  refine ⟨"AttributeError: get", ?_⟩
  simp [lambda_handler, run_pipeline, run_core, parse_body, hb, hp, pyOr, jtruthy,
    hs, pyGet, pyGetD, Except.map]

/-- C10 witness: the concrete body `"not json"`. -/
theorem bad_body_spec_witness :
    ∃ d, lambda_handler envW tmA (.obj [("body", .str "not json")]) =
      ⟨500, .obj [("error", .str "lambda-failed"), ("detail", .str d)]⟩ :=
  bad_body_spec envW tmA [("body", .str "not json")] "not json" rfl (by decide) rfl

/-- C8 (amended).  Two runs over the same request and the same external
collaborators (same raw bytes, same deterministic inference responses)
produce identical FieldSet, FieldError list, status, biller, userId and
fileName; the correlationId is identical whenever the request supplied a
truthy one, and otherwise both runs carry their own generated
`cid-<timestamp>`.  Only `createdAt`, `processingTimeMs` and that generated
id depend on the clock. -/
theorem idempotence_spec (env : CoreEnv) (t1 t2 : TimeEnv) (event : Json)
    (i1 i2 : Item) (r1 r2 : Resp)
    (h1 : run_pipeline env t1 event = .ok (.done i1 r1))
    (h2 : run_pipeline env t2 event = .ok (.done i2 r2)) :
    i1.extracted = i2.extracted ∧ i1.errors = i2.errors ∧ i1.status = i2.status ∧
    i1.billerDetected = i2.billerDetected ∧ i1.userId = i2.userId ∧
    i1.fileName = i2.fileName ∧
    (i1.correlationId = i2.correlationId ∨
      (i1.correlationId = .str ("cid-" ++ toString t1.nowMs) ∧
       i2.correlationId = .str ("cid-" ++ toString t2.nowMs))) := by
  unfold run_pipeline at h1 h2
  cases hc : run_core env event with
  | error e => rw [hc] at h1; simp [Except.map] at h1
  | ok co =>
    rw [hc] at h1 h2
    simp only [Except.map] at h1 h2
    cases co with
    | early r0 => simp [assemble] at h1
    | done cid0 uid fname ex errs biller =>
      simp only [assemble, Except.ok.injEq] at h1 h2
      injection h1 with h1i h1r
      injection h2 with h2i h2r
      subst h1i; subst h2i
      by_cases ht : jtruthy cid0 = true
      · simp [ht]
      · simp only [Bool.not_eq_true] at ht
        simp [ht]

/-- C8 witness: two concrete runs at different clocks. -/
theorem idempotence_spec_witness :
    itemWA.extracted = itemWB.extracted ∧ itemWA.errors = itemWB.errors ∧
    itemWA.status = itemWB.status ∧
    itemWA.billerDetected = itemWB.billerDetected ∧
    itemWA.userId = itemWB.userId ∧ itemWA.fileName = itemWB.fileName ∧
    (itemWA.correlationId = itemWB.correlationId ∨
      (itemWA.correlationId = .str ("cid-" ++ toString tmA.nowMs) ∧
       itemWB.correlationId = .str ("cid-" ++ toString tmB.nowMs))) :=
  idempotence_spec envW tmA tmB eventW itemWA itemWB respWA respWB rfl rfl

/-- C8 counterexample to the claim as stated: for a request that omits
`correlationId`, two runs differing only in the clock produce
ProcessingResults whose `correlationId` fields differ, so more than
`createdAt` and `processingTimeMs` differs between the runs. -/
theorem idempotence_cid_counterexample :
    run_pipeline envW tmA eventW = .ok (.done itemWA respWA) ∧
    run_pipeline envW tmB eventW = .ok (.done itemWB respWB) ∧
    itemWA.correlationId ≠ itemWB.correlationId :=
  ⟨rfl, rfl, by simp [itemWA, itemWB]⟩

/-- C3 counterexample to the claim as stated: with inference configured and
non-empty text, a service response that parses to a JSON object without the
six field keys is returned verbatim, so the result does not carry the
`invoiceNumber` key (callers cannot rely on key presence). -/
theorem extract_fields_shape_counterexample :
    call_openai_extract_fields envFoo "x" = .obj [("foo", .null)] ∧
    hasKey (call_openai_extract_fields envFoo "x") "invoiceNumber" = false :=
  ⟨rfl, rfl⟩

/-- C3 (amended).  `call_openai_extract_fields` returns the all-null six-key
FieldSet when inference is unconfigured, the text is empty, the service call
fails, or the response is not parseable JSON; a parseable response is
returned verbatim whatever its shape.  The fallback FieldSet carries exactly
the six documented keys, all null. -/
theorem extract_fields_spec (env : CoreEnv) (text : String) :
    ((env.openaiAvailable = false ∨ env.hasApiKey = false ∨ text = "") →
      call_openai_extract_fields env text = emptyFieldSet) ∧
    (env.openaiAvailable = true → env.hasApiKey = true → text ≠ "" →
      (env.chat (extract_fields_prompt text) = none →
        call_openai_extract_fields env text = emptyFieldSet) ∧
      (∀ r, env.chat (extract_fields_prompt text) = some r → json_loads r = none →
        call_openai_extract_fields env text = emptyFieldSet) ∧
      (∀ r j, env.chat (extract_fields_prompt text) = some r → json_loads r = some j →
        call_openai_extract_fields env text = j)) ∧
    (objLookup emptyFieldSet "invoiceNumber" = some .null ∧
     objLookup emptyFieldSet "amount" = some .null ∧
     objLookup emptyFieldSet "dueDateRaw" = some .null ∧
     objLookup emptyFieldSet "routingNumber" = some .null ∧
     objLookup emptyFieldSet "accountNumber" = some .null ∧
     objLookup emptyFieldSet "payeeName" = some .null ∧
     objSize emptyFieldSet = 6) := by
  refine ⟨?_, ?_, ⟨rfl, rfl, rfl, rfl, rfl, rfl, rfl⟩⟩
  · rintro (ha | hk | ht)
    · simp [call_openai_extract_fields, ha]
    · simp [call_openai_extract_fields, hk]
    · simp [call_openai_extract_fields, ht]
  · intro ha hk ht
    refine ⟨?_, ?_, ?_⟩
    · intro hc
      simp [call_openai_extract_fields, ha, hk, ht, hc]
    · intro r hc hp
      simp [call_openai_extract_fields, ha, hk, ht, hc, hp]
    · intro r j hc hp
      simp [call_openai_extract_fields, ha, hk, ht, hc, hp]

/-- C3 witness: a parseable object response without the six keys passes
through verbatim. -/
theorem extract_fields_spec_witness :
    call_openai_extract_fields envFoo "x" = Json.obj [("foo", Json.null)] :=
  ((extract_fields_spec envFoo "x").2.1 rfl rfl (by decide)).2.2
    "\x7b\"foo\": null\x7d" (.obj [("foo", .null)]) rfl rfl

/-- Helper: when the stored routing value is a string or null, the
routing-number phase of `validateFields` cannot raise and contributes
`routing_errors`; the due-date phase remains. -/
theorem validateFields_step (env : CoreEnv) (fs : List (String × Json))
    (hr : isStrOrNull ((jlookup fs "routingNumber").getD .null) = true) :
    validateFields env (.obj fs) =
      (let d := (jlookup fs "dueDateRaw").getD .null
       if jtruthy d then
         let norm := normalize_due_date_via_openai env d
         match pyGet norm "normalized" with
         | .error e => .error e
         | .ok normalized =>
           if jtruthy normalized then
             .ok (pySetKey (.obj fs) "dueDate" normalized, routing_errors fs)
           else
             match pyGet norm "note" with
             | .error e => .error e
             | .ok note => .ok (.obj fs, routing_errors fs ++ [mk_due_error note])
       else .ok (.obj fs, routing_errors fs)) := by
  cases hv : (jlookup fs "routingNumber").getD .null with
  | null =>
    simp [validateFields, pyGet, pyGetD, hv, routing_errors, jtruthy]
  | str s =>
    by_cases hs : (s == "") = true
    · simp [validateFields, pyGet, pyGetD, hv, routing_errors, jtruthy, hs]
    · simp only [Bool.not_eq_true] at hs
      simp [validateFields, pyGet, pyGetD, hv, routing_errors, jtruthy, hs,
        rn_check_json]
  | bool b => rw [hv] at hr; simp [isStrOrNull] at hr
  | num q => rw [hv] at hr; simp [isStrOrNull] at hr
  | arr xs => rw [hv] at hr; simp [isStrOrNull] at hr
  | obj gs => rw [hv] at hr; simp [isStrOrNull] at hr

/-- C7 counterexample to the claim as stated: a present-but-empty
`dueDateRaw` is skipped by the truthiness test, so the orchestrator neither
sets `dueDate` nor appends a FieldError (and the normalizer is never
consulted). -/
theorem due_date_truthiness_counterexample :
    validateFields envW (.obj [("dueDateRaw", .str "")]) =
      .ok (.obj [("dueDateRaw", .str "")], []) ∧
    hasKey (.obj [("dueDateRaw", .str "")]) "dueDateRaw" = true ∧
    hasKey (.obj [("dueDateRaw", .str "")]) "dueDate" = false :=
  ⟨rfl, rfl, rfl⟩

/-- C7 (amended).  The Date Normalizer answers `ai-not-configured` when
inference is unconfigured or the raw value is falsy, and `ai-failed` when
the call fails or the response does not parse as JSON.  Whenever the
extracted `dueDateRaw` is present and truthy (and the routing value is a
string or null, so the routing phase does not raise), the orchestrator
writes `dueDate` when the normalizer's `normalized` value is truthy and
otherwise appends the FieldError (`dueDate`, "Ambiguous date format",
suggestedFix = the normalizer's note, confidence 0.5). -/
theorem due_date_spec :
    (∀ (env : CoreEnv) (d : Json),
      (env.openaiAvailable = false ∨ env.hasApiKey = false ∨ jtruthy d = false) →
      normalize_due_date_via_openai env d =
        .obj [("normalized", .null), ("note", .str "ai-not-configured")]) ∧
    (∀ (env : CoreEnv) (d : Json), env.openaiAvailable = true →
      env.hasApiKey = true → jtruthy d = true →
      (env.chat (normalize_prompt d) = none →
        normalize_due_date_via_openai env d =
          .obj [("normalized", .null), ("note", .str "ai-failed")]) ∧
      (∀ r, env.chat (normalize_prompt d) = some r → json_loads r = none →
        normalize_due_date_via_openai env d =
          .obj [("normalized", .null), ("note", .str "ai-failed")])) ∧
    (∀ (env : CoreEnv) (fs : List (String × Json)) (d : Json)
      (gs : List (String × Json)),
      isStrOrNull ((jlookup fs "routingNumber").getD .null) = true →
      jlookup fs "dueDateRaw" = some d → jtruthy d = true →
      normalize_due_date_via_openai env d = .obj gs →
      ((jtruthy ((jlookup gs "normalized").getD .null) = true →
        validateFields env (.obj fs) =
          .ok (.obj (insertKey fs "dueDate" ((jlookup gs "normalized").getD .null)),
            routing_errors fs)) ∧
       (jtruthy ((jlookup gs "normalized").getD .null) = false →
        validateFields env (.obj fs) =
          .ok (.obj fs,
            routing_errors fs ++ [mk_due_error ((jlookup gs "note").getD .null)])))) := by
  refine ⟨?_, ?_, ?_⟩
  · rintro env d (ha | hk | ht)
    · simp [normalize_due_date_via_openai, ha]
    · simp [normalize_due_date_via_openai, hk]
    · simp [normalize_due_date_via_openai, ht]
  · intro env d ha hk ht
    constructor
    · intro hc
      simp [normalize_due_date_via_openai, ha, hk, ht, hc]
    · intro r hc hp
      simp [normalize_due_date_via_openai, ha, hk, ht, hc, hp]
  · intro env fs d gs hr hd htr hnorm
    rw [validateFields_step env fs hr]
    constructor
    · intro hn
      simp [hd, htr, hnorm, pyGet, pyGetD, hn, pySetKey]
    · intro hn
      simp [hd, htr, hnorm, pyGet, pyGetD, hn]

/-- C7 witness: with inference unconfigured, a truthy `dueDateRaw` yields
the `dueDate` FieldError carrying the `ai-not-configured` note. -/
theorem due_date_spec_witness :
    validateFields envW (.obj [("dueDateRaw", .str "tomorrow")]) =
      .ok (.obj [("dueDateRaw", .str "tomorrow")],
        [mk_due_error (.str "ai-not-configured")]) :=
  (due_date_spec.2.2 envW [("dueDateRaw", .str "tomorrow")] (.str "tomorrow")
    [("normalized", .null), ("note", .str "ai-not-configured")]
    rfl rfl rfl rfl).2 rfl

/-- Helper: a value found by `jlookup` is stored in the list. -/
theorem jlookup_val_mem {fs : List (String × Json)} {k : String} {v : Json}
    (h : jlookup fs k = some v) : ∃ k2, (k2, v) ∈ fs := by
  induction fs with
  | nil => simp [jlookup] at h
  | cons hd tl ih =>
    obtain ⟨k2, v2⟩ := hd
    by_cases he : (k2 == k) = true
    · simp only [jlookup, he, if_true, Option.some.injEq] at h
      subst h
      exact ⟨k2, List.mem_cons_self _ _⟩
    · simp only [jlookup, he, if_false, Bool.false_eq_true] at h
      obtain ⟨k3, hm⟩ := ih h
      exact ⟨k3, List.mem_cons_of_mem _ hm⟩

/-- Helper: under `goodResp` chat responses, the Date Normalizer always
returns a JSON object (its own fallbacks are objects, and a parsed response
is an object by assumption). -/
theorem norm_result_obj (env : CoreEnv) (d : Json)
    (hchat : ∀ p r, env.chat p = some r → goodResp r) :
    ∃ gs, normalize_due_date_via_openai env d = .obj gs := by
  unfold normalize_due_date_via_openai
  split
  · exact ⟨_, rfl⟩
  · cases hc : env.chat (normalize_prompt d) with
    | none => exact ⟨_, rfl⟩
    | some r =>
      rcases hchat _ _ hc with hp | ⟨gs, hp, _⟩
      · simp only [hp]
        exact ⟨_, rfl⟩
      · simp only [hp]
        exact ⟨gs, rfl⟩

/-- Helper: under `goodResp` chat responses, the Field Extractor always
returns a JSON object whose values are strings or null. -/
theorem extract_fields_good (env : CoreEnv) (text : String)
    (hchat : ∀ p r, env.chat p = some r → goodResp r) :
    ∃ fs, call_openai_extract_fields env text = .obj fs ∧
      ∀ kv ∈ fs, isStrOrNull kv.2 = true := by
  have hempty : ∀ kv ∈ [("invoiceNumber", Json.null), ("amount", Json.null),
      ("dueDateRaw", Json.null), ("routingNumber", Json.null),
      ("accountNumber", Json.null), ("payeeName", Json.null)],
      isStrOrNull kv.2 = true := by decide
  unfold call_openai_extract_fields
  split
  · exact ⟨_, rfl, hempty⟩
  · cases hc : env.chat (extract_fields_prompt text) with
    | none => exact ⟨_, rfl, hempty⟩
    | some r =>
      rcases hchat _ _ hc with hp | ⟨gs, hp, hvals⟩
      · simp only [hp]
        exact ⟨_, rfl, hempty⟩
      · simp only [hp]
        exact ⟨gs, rfl, hvals⟩

/-- Helper: under `goodResp` chat responses, validation of a
strings-or-null field object cannot raise. -/
theorem validate_ok (env : CoreEnv) (fs : List (String × Json))
    (hvals : ∀ kv ∈ fs, isStrOrNull kv.2 = true)
    (hchat : ∀ p r, env.chat p = some r → goodResp r) :
    ∃ ex errs, validateFields env (.obj fs) = .ok (ex, errs) := by
  have hr : isStrOrNull ((jlookup fs "routingNumber").getD .null) = true := by
    cases hj : jlookup fs "routingNumber" with
    | none => rfl
    | some v =>
      obtain ⟨k2, hm⟩ := jlookup_val_mem hj
      simpa using hvals (k2, v) hm
  rw [validateFields_step env fs hr]
  by_cases hdt : jtruthy ((jlookup fs "dueDateRaw").getD .null) = true
  · obtain ⟨gs, hgs⟩ := norm_result_obj env ((jlookup fs "dueDateRaw").getD .null) hchat
    by_cases hn : jtruthy ((jlookup gs "normalized").getD .null) = true
    · exact ⟨pySetKey (.obj fs) "dueDate" ((jlookup gs "normalized").getD .null),
        routing_errors fs, by simp [hdt, hgs, pyGet, pyGetD, hn]⟩
    · simp only [Bool.not_eq_true] at hn
      exact ⟨.obj fs, routing_errors fs ++ [mk_due_error ((jlookup gs "note").getD .null)],
        by simp [hdt, hgs, pyGet, pyGetD, hn]⟩
  · simp only [Bool.not_eq_true] at hdt
    exact ⟨.obj fs, routing_errors fs, by simp [hdt]⟩

/-- C4 counterexample to the claim as stated: the payload decodes
successfully, yet an inference response that is valid JSON but not an object
(`[]`) escapes the Field Extractor verbatim, the orchestrator's attribute
access on it raises, and the handler answers with the 500 server-error
envelope instead of the success response. -/
theorem pipeline_total_counterexample :
    envArr.b64decode "AA==" = some [1] ∧
    lambda_handler envArr tmA eventW =
      ⟨500, .obj [("error", .str "lambda-failed"),
        ("detail", .str "AttributeError: get")]⟩ :=
  ⟨rfl, rfl⟩

/-- C4 (amended).  Once `documentBase64` decodes, the pipeline runs to
completion and returns the 200 `{correlationId, status}` success response
provided every inference response either fails to parse as JSON or parses to
a JSON object with string-or-null values; text-extraction failures and
unparsable field-extraction responses are absorbed at their stage (the
latter yielding the all-null FieldSet), but responses parsing to non-object
JSON escape to the outermost boundary. -/
theorem pipeline_total_spec (env : CoreEnv) (tm : TimeEnv) (event : Json)
    (bfs : List (String × Json)) (s : String) (bytes : List Nat)
    (hbody : parse_body event = .obj bfs)
    (hdoc : jlookup bfs "documentBase64" = some (.str s))
    (hs : s ≠ "")
    (hdec : env.b64decode s = some bytes)
    (hchat : ∀ p r, env.chat p = some r → goodResp r) :
    ∃ item, run_pipeline env tm event = .ok (.done item
        ⟨200, .obj [("correlationId", item.correlationId),
          ("status", .str item.status)]⟩) ∧
      lambda_handler env tm event =
        ⟨200, .obj [("correlationId", item.correlationId),
          ("status", .str item.status)]⟩ := by
  obtain ⟨fs2, hex, hvals⟩ :=
    extract_fields_good env (extract_text_from_pdf_bytes env bytes) hchat
  obtain ⟨ex, errs, hval⟩ := validate_ok env fs2 hvals hchat
  have hrun : run_core env event = .ok (.done
      ((jlookup bfs "correlationId").getD .null)
      ((jlookup bfs "userId").getD (.str "demo"))
      ((jlookup bfs "fileName").getD (.str "uploaded.pdf")) ex errs
      (detect_biller (extract_text_from_pdf_bytes env bytes))) := by
    simp [run_core, hbody, pyGet, pyGetD, hdoc, hs, jtruthy, pyB64decode, hdec,
      hex, hval]
  refine ⟨⟨(if jtruthy ((jlookup bfs "correlationId").getD .null) then
      (jlookup bfs "correlationId").getD .null
    else .str ("cid-" ++ toString tm.nowMs)),
    (jlookup bfs "userId").getD (.str "demo"),
    (jlookup bfs "fileName").getD (.str "uploaded.pdf"),
    (if errs.isEmpty then "approved" else "needs_review"), ex, errs, .obj [],
    detect_biller (extract_text_from_pdf_bytes env bytes), tm.createdAt,
    tm.elapsedMs⟩, ?_, ?_⟩
  · rw [run_pipeline, hrun]; rfl
  · rw [lambda_handler, run_pipeline, hrun]; rfl

/-- C4 witness: an unconfigured environment (the chat hypothesis holds
vacuously) with a decodable payload reaches the 200 success response. -/
theorem pipeline_total_spec_witness :
    ∃ item, run_pipeline envW tmA eventW = .ok (.done item
        ⟨200, .obj [("correlationId", item.correlationId),
          ("status", .str item.status)]⟩) ∧
      lambda_handler envW tmA eventW =
        ⟨200, .obj [("correlationId", item.correlationId),
          ("status", .str item.status)]⟩ :=
  pipeline_total_spec envW tmA eventW [("documentBase64", .str "AA==")] "AA==" []
    rfl rfl (by decide) rfl (fun p r h => by simp [envW] at h)
